import Mathlib

/-!
Verification of the `hx711-pico-mpy` driver (`src/hx711.py`, `src/util.py`).

The driver is shallowly embedded: Python class-level constant tables become
Lean constants, Python arbitrary-precision integers become `Int` (Python's
bitwise `&` on possibly negative integers is exactly Mathlib's two's
complement `Int.land`), the PIO state machine's FIFOs become explicit lists
threaded through each operation, Python `None` outcomes become `Option`,
and a call that can only return once the hardware engine has produced
enough samples is modelled as `Option` over the queued sample list.
-/

namespace hx711

/-- Embeds `hx711.READ_BITS = const(24)`. -/
def READ_BITS : Int := 24

/-- Embeds `hx711.POWER_DOWN_TIMEOUT = const(60)` (microseconds). -/
def POWER_DOWN_TIMEOUT : Int := 60

/-- Embeds `hx711.MIN_VALUE = const(-0x800000)`. -/
def MIN_VALUE : Int := -0x800000

/-- Embeds `hx711.MAX_VALUE = const(0x7fffff)`. -/
def MAX_VALUE : Int := 0x7fffff

/-- Embeds `hx711.PIO_MIN_GAIN = const(0)`. -/
def PIO_MIN_GAIN : Int := 0

/-- Embeds `hx711.PIO_MAX_GAIN = const(2)`. -/
def PIO_MAX_GAIN : Int := 2

/-- Embeds `hx711.SETTLING_TIMES = [400, 50]` (milliseconds). -/
def SETTLING_TIMES : List Int := [400, 50]

/-- Embeds `hx711.SAMPLES_RATES = [10, 80]`. -/
def SAMPLES_RATES : List Int := [10, 80]

/-- Embeds `hx711.CLOCK_PULSES = [25, 26, 27]`. -/
def CLOCK_PULSES : List Int := [25, 26, 27]

/-- Embeds `hx711.RATES["rate_10"]`. -/
def rate_10 : Int := 0

/-- Embeds `hx711.RATES["rate_80"]`. -/
def rate_80 : Int := 1

/-- Embeds `hx711.GAINS["gain_128"]`. -/
def gain_128 : Int := 0

/-- Embeds `hx711.GAINS["gain_64"]`. -/
def gain_64 : Int := 1

/-- Embeds `hx711.GAINS["gain_32"]`. -/
def gain_32 : Int := 2

/-- Python list indexing `xs[i]`: a negative index counts from the end of
the list; an index that is still out of range raises `IndexError`,
modelled as `none`. -/
def pyListGet (xs : List Int) (i : Int) : Option Int :=
  let j : Int := if i < 0 then i + xs.length else i
  if h : 0 ≤ j ∧ j.toNat < xs.length then some (xs.get ⟨j.toNat, h.2⟩)
  else none

/-- Embeds `hx711.get_settling_time(rate) = SETTLING_TIMES[rate]`. -/
def get_settling_time (rate : Int) : Option Int :=
  pyListGet SETTLING_TIMES rate

/-- Embeds `hx711.get_rate_sps(rate) = SAMPLES_RATES[rate]`. -/
def get_rate_sps (rate : Int) : Option Int :=
  pyListGet SAMPLES_RATES rate

/-- Embeds `hx711.get_clock_pulses(gain) = CLOCK_PULSES[gain]`. -/
def get_clock_pulses (gain : Int) : Option Int :=
  pyListGet CLOCK_PULSES gain

/-- Embeds `hx711.gain_to_pio_gain(gain) = get_clock_pulses(gain) - READ_BITS - 1`. -/
def gain_to_pio_gain (gain : Int) : Option Int :=
  (get_clock_pulses gain).map (fun p => p - READ_BITS - 1)

/-- Embeds `hx711.get_twos_comp(raw) = -(raw & +MIN_VALUE) + (raw & MAX_VALUE)`;
Python's `&` on arbitrary-precision (possibly negative) integers is two's
complement bitwise and, i.e. `Int.land`. -/
def get_twos_comp (raw : Int) : Int :=
  -(Int.land raw MIN_VALUE) + Int.land raw MAX_VALUE

/-- Embeds `hx711.is_min_saturated(val) = (val == MIN_VALUE)`. -/
def is_min_saturated (val : Int) : Bool :=
  val == MIN_VALUE

/-- Embeds `hx711.is_max_saturated(val) = (val == MAX_VALUE)`. -/
def is_max_saturated (val : Int) : Bool :=
  val == MAX_VALUE

/-- Embeds `hx711.is_value_valid(val)`. -/
def is_value_valid (val : Int) : Bool :=
  decide (MIN_VALUE ≤ val) && decide (val ≤ MAX_VALUE)

/-- Embeds `hx711.is_pio_gain_valid(gain)`. -/
def is_pio_gain_valid (gain : Int) : Bool :=
  decide (PIO_MIN_GAIN ≤ gain) && decide (gain ≤ PIO_MAX_GAIN)

/-- Embeds `hx711.is_rate_valid(rate)`. -/
def is_rate_valid (rate : Int) : Bool :=
  decide (rate_10 ≤ rate) && decide (rate ≤ rate_80)

/-- Embeds `hx711.is_gain_valid(gain)`. -/
def is_gain_valid (gain : Int) : Bool :=
  decide (gain_128 ≤ gain) && decide (gain ≤ gain_32)

/-- FIFO state of the PIO state machine as seen by the driver: `tx` is the
gain-code input queue and `rx` the sample output queue, each with the front
of the list as the next word to be read. -/
structure SMState where
  tx : List Int
  rx : List Nat
  active : Bool
  deriving Repr, DecidableEq

/-- Embeds `_util.sm_drain_tx_fifo(sm)`: `while sm.tx_fifo() != 0: sm.exec(...)`;
each non-blocking pull removes one queued word from the TX FIFO. -/
def sm_drain_tx_fifo : List Int → List Int
  | [] => []
  | _ :: rest => sm_drain_tx_fifo rest

/-- Embeds `_util.sm_get_blocking(sm)`: spins until the RX FIFO is nonempty, then
pops its front word.  `none` models the call never returning because the
engine never pushes a sample; the same model covers MicroPython's blocking
`sm.get()`. -/
def sm_get_blocking (rx : List Nat) : Option (Nat × List Nat) :=
  match rx with
  | r :: rest => some (r, rest)
  | [] => none

/-- Embeds `hx711.set_gain(gain)`: compute `gain_to_pio_gain(gain)` (a Python
`IndexError` for a gain outside the table is `none`), drain the TX FIFO,
`put` the PIO gain code, then perform two blocking RX reads (`sm.get()`
followed by `_util.sm_get_blocking`), discarding both read words. -/
def set_gain (gain : Int) (s : SMState) : Option SMState :=
  match gain_to_pio_gain gain with
  | none => none
  | some pioGain =>
    let tx1 := sm_drain_tx_fifo s.tx
    let tx2 := tx1 ++ [pioGain]
    match sm_get_blocking s.rx with
    | none => none
    | some (_, rx1) =>
      match sm_get_blocking rx1 with
      | none => none
      | some (_, rx2) => some { tx := tx2, rx := rx2, active := s.active }

/-- Embeds `hx711._try_get_value()`: `words = READ_BITS / 8` and the front RX word
is popped only when `rx_fifo() >= words`; otherwise `None` and the FIFO is
untouched. -/
def try_get_value (rx : List Nat) : Option Nat × List Nat :=
  let words := (READ_BITS / 8).toNat
  if rx.length ≥ words then
    match rx with
    | r :: rest => (some r, rest)
    | [] => (none, rx)
  else (none, rx)

/-- The shared return expression `self.get_twos_comp(val) if val else None`
of `get_value_timeout` and `get_value_noblock`: Python truthiness treats
both `None` and the integer `0` as false. -/
def decode_if_truthy (val : Option Nat) : Option Int :=
  match val with
  | some v => if v ≠ 0 then some (get_twos_comp (v : Int)) else none
  | none => none

/-- The polling loop of `hx711.get_value_timeout`: `ticks` is the value of
`time.ticks_us()` observed at each successive loop-condition check; while
the current tick is below `endTime` the body runs `_try_get_value` and
breaks as soon as it returns a value.  Returns the final `val` together
with the remaining RX FIFO. -/
def get_value_timeout_loop (endTime : Nat) (ticks : List Nat) (rx : List Nat) :
    Option Nat × List Nat :=
  match ticks with
  | [] => (none, rx)
  | t :: ts =>
    if t < endTime then
      match try_get_value rx with
      | (some v, rx2) => (some v, rx2)
      | (none, rx2) => get_value_timeout_loop endTime ts rx2
    else (none, rx)

/-- Embeds `hx711.get_value_timeout(timeout)`: `endTime = ticks_us() + timeout`,
poll until the deadline, then return
`self.get_twos_comp(val) if val else None`.  `startTime` is the initial
`ticks_us()` reading and `ticks` the readings at each loop check. -/
def get_value_timeout (startTime timeout : Nat) (ticks : List Nat) (rx : List Nat) :
    Option Int :=
  let endTime := startTime + timeout
  decode_if_truthy (get_value_timeout_loop endTime ticks rx).1

/-- Embeds `hx711.get_value_noblock()`: one `_try_get_value` call, then
`self.get_twos_comp(val) if val else None`. -/
def get_value_noblock (rx : List Nat) : Option Int :=
  decode_if_truthy (try_get_value rx).1

/-- Level of a GPIO pin. -/
inductive PinLevel
  | low
  | high
  deriving Repr, DecidableEq

/-- The driver state touched by `close`, `power_up` and `power_down`:
the clock pin's level, the pin configuration set in `__init__`
(clock as output, data as input), whether the state machine is active,
and whether the PIO program is still loaded in its hardware slot. -/
structure DriverState where
  clock_pin : PinLevel
  clock_mode_out : Bool
  data_mode_in : Bool
  sm_active : Bool
  program_loaded : Bool
  deriving Repr, DecidableEq

/-- Embeds `hx711.close()`: `self._sm.active(0)` then
`remove_program(self._prog.program)`; no pin is touched. -/
def close (s : DriverState) : DriverState :=
  { s with sm_active := false, program_loaded := false }

/-- Embeds `hx711.power_down()`: `self._sm.active(0)` then
`self.clock_pin.high()`. -/
def power_down (s : DriverState) : DriverState :=
  { s with sm_active := false, clock_pin := PinLevel.high }

/-! ### Characterization of the two's-complement decode -/

lemma land_min_eq_ldiff (n : Nat) :
    Int.land (n : Int) MIN_VALUE = (Nat.ldiff n 8388607 : Int) := rfl

lemma land_max_eq_land (n : Nat) :
    Int.land (n : Int) MAX_VALUE = ((n &&& 8388607 : Nat) : Int) := rfl

lemma land_pos_mask (n : Nat) :
    Int.land (n : Int) (8388608 : Int) = ((n &&& 8388608 : Nat) : Int) := rfl

lemma land_pos_mask_low (n : Nat) :
    Int.land (n : Int) (8388607 : Int) = ((n &&& 8388607 : Nat) : Int) := rfl

lemma ldiff_mask (n : Nat) (h : n < 16777216) :
    Nat.ldiff n 8388607 = if 8388608 ≤ n then 8388608 else 0 := by
  apply Nat.eq_of_testBit_eq
  intro i
  rw [Nat.testBit_ldiff]
  have e8 : Nat.testBit 8388608 i = decide (23 = i) := by
    rw [show (8388608 : Nat) = 2 ^ 23 by norm_num, Nat.testBit_two_pow]
  have e7 : Nat.testBit 8388607 i = decide (i < 23) := by
    rw [show (8388607 : Nat) = 2 ^ 23 - 1 by norm_num, Nat.testBit_two_pow_sub_one]
  rw [e7]
  rcases lt_trichotomy i 23 with hi | hi | hi
  · have : decide (i < 23) = true := by simpa using hi
    rw [this]
    split
    · rw [e8]
      simp [Nat.ne_of_gt hi]
    · simp
  · subst hi
    have hn23 : Nat.testBit n 23 = decide (8388608 ≤ n) := by
      rw [Nat.testBit_to_div_mod, show (2 : Nat) ^ 23 = 8388608 by norm_num]
      rcases Nat.lt_or_ge n 8388608 with hc | hc
      · simp only [decide_eq_decide]
        omega
      · simp only [decide_eq_decide]
        omega
    rw [hn23]
    split
    · next hle => simp [hle, e8]
    · next hle => simp [hle]
  · have hn : Nat.testBit n i = false := by
      apply Nat.testBit_lt_two_pow
      calc n < 16777216 := h
        _ = 2 ^ 24 := by norm_num
        _ ≤ 2 ^ i := Nat.pow_le_pow_right (by norm_num) hi
    rw [hn]
    split
    · rw [e8]
      simp [Nat.ne_of_lt hi]
    · simp

lemma land_high_bit (n : Nat) (h : n < 16777216) :
    n &&& 8388608 = Nat.ldiff n 8388607 := by
  apply Nat.eq_of_testBit_eq
  intro i
  rw [Nat.testBit_and, Nat.testBit_ldiff]
  have e8 : Nat.testBit 8388608 i = decide (23 = i) := by
    rw [show (8388608 : Nat) = 2 ^ 23 by norm_num, Nat.testBit_two_pow]
  have e7 : Nat.testBit 8388607 i = decide (i < 23) := by
    rw [show (8388607 : Nat) = 2 ^ 23 - 1 by norm_num, Nat.testBit_two_pow_sub_one]
  rw [e7, e8]
  rcases lt_trichotomy i 23 with hi | hi | hi
  · simp [Nat.ne_of_gt hi, hi]
  · subst hi
    simp
  · have hn : Nat.testBit n i = false := by
      apply Nat.testBit_lt_two_pow
      calc n < 16777216 := h
        _ = 2 ^ 24 := by norm_num
        _ ≤ 2 ^ i := Nat.pow_le_pow_right (by norm_num) hi
    simp [hn]

lemma land_low_mask (n : Nat) : n &&& 8388607 = n % 8388608 := by
  have e := Nat.and_pow_two_sub_one_eq_mod n 23
  norm_num at e
  exact e

/-- On 24-bit inputs the decode is the standard two's-complement
reinterpretation. -/
lemma get_twos_comp_char (n : Nat) (h : n < 16777216) :
    get_twos_comp (n : Int) =
      if n < 8388608 then (n : Int) else (n : Int) - 16777216 := by
  unfold get_twos_comp
  rw [land_min_eq_ldiff, land_max_eq_land, ldiff_mask n h, land_low_mask]
  rcases Nat.lt_or_ge n 8388608 with hc | hc
  · rw [if_neg (by omega), if_pos hc]
    push_cast
    omega
  · rw [if_pos hc, if_neg (by omega)]
    push_cast
    omega

/-! ### Claim theorems -/

/-- C1: for every 24-bit raw input, `get_twos_comp(raw)` equals
`-(raw & 0x800000) + (raw & 0x7fffff)`, lies in [-8388608, 8388607]
(determinism is inherent: the decode is a pure function of its argument),
and `get_twos_comp` maps 0x000000 to 0, 0x800000 to -8388608 and 0x7fffff
to 8388607. -/
theorem C1_get_twos_comp_decode (raw : Nat) (h : raw < 16777216) :
    get_twos_comp (raw : Int) =
      -(Int.land (raw : Int) 8388608) + Int.land (raw : Int) 8388607 ∧
    -8388608 ≤ get_twos_comp (raw : Int) ∧
    get_twos_comp (raw : Int) ≤ 8388607 ∧
    get_twos_comp ((0 : Nat) : Int) = 0 ∧
    get_twos_comp ((8388608 : Nat) : Int) = -8388608 ∧
    get_twos_comp ((8388607 : Nat) : Int) = 8388607 := by
  have hchar := get_twos_comp_char raw h
  refine ⟨?_, ?_, ?_, ?_, ?_, ?_⟩
  · unfold get_twos_comp
    rw [land_min_eq_ldiff, land_max_eq_land, land_pos_mask, land_pos_mask_low,
      land_high_bit raw h]
  · rw [hchar]
    split <;> omega
  · rw [hchar]
    split <;> omega
  · have h0 := get_twos_comp_char 0 (by norm_num)
    simpa using h0
  · have h1 := get_twos_comp_char 8388608 (by norm_num)
    norm_num at h1
    simpa using h1
  · have h2 := get_twos_comp_char 8388607 (by norm_num)
    norm_num at h2
    simpa using h2

/-- Witness for C1 at the concrete raw input 300. -/
theorem C1_get_twos_comp_decode_witness :
    -8388608 ≤ get_twos_comp ((300 : Nat) : Int) :=
  (C1_get_twos_comp_decode 300 (by norm_num)).2.1

/-- C4: the decode is a bijection from the 24-bit domain [0, 2^24) onto
[-8388608, 8388607]: it is total (a Lean function, and its value always
lies in the range), injective, and every value of the range is attained. -/
theorem C4_get_twos_comp_bijection :
    (∀ r1 r2 : Nat, r1 < 16777216 → r2 < 16777216 →
        get_twos_comp (r1 : Int) = get_twos_comp (r2 : Int) → r1 = r2) ∧
    (∀ r : Nat, r < 16777216 →
        -8388608 ≤ get_twos_comp (r : Int) ∧ get_twos_comp (r : Int) ≤ 8388607) ∧
    (∀ v : Int, -8388608 ≤ v → v ≤ 8388607 →
        ∃ r : Nat, r < 16777216 ∧ get_twos_comp (r : Int) = v) := by
  refine ⟨?_, ?_, ?_⟩
  · intro r1 r2 h1 h2 heq
    rw [get_twos_comp_char r1 h1, get_twos_comp_char r2 h2] at heq
    split_ifs at heq <;> omega
  · intro r h
    rw [get_twos_comp_char r h]
    split <;> constructor <;> omega
  · intro v hv1 hv2
    rcases le_or_lt 0 v with hv | hv
    · refine ⟨v.toNat, by omega, ?_⟩
      rw [get_twos_comp_char v.toNat (by omega), if_pos (by omega)]
      omega
    · refine ⟨(v + 16777216).toNat, by omega, ?_⟩
      rw [get_twos_comp_char (v + 16777216).toNat (by omega), if_neg (by omega)]
      omega

/-- Witness for C4's surjectivity component at the concrete value -1. -/
theorem C4_get_twos_comp_bijection_witness :
    ∃ r : Nat, r < 16777216 ∧ get_twos_comp (r : Int) = -1 :=
  C4_get_twos_comp_bijection.2.2 (-1) (by norm_num) (by norm_num)

/-- C5: on the valid reading range, `is_min_saturated` holds exactly at
-8388608 and `is_max_saturated` exactly at 8388607. -/
theorem C5_saturation_predicates (v : Int) (h1 : -8388608 ≤ v) (h2 : v ≤ 8388607) :
    (is_min_saturated v = true ↔ v = -8388608) ∧
    (is_max_saturated v = true ↔ v = 8388607) := by
  unfold is_min_saturated is_max_saturated MIN_VALUE MAX_VALUE
  constructor <;> simp

/-- Witness for C5 at the concrete value 0. -/
theorem C5_saturation_predicates_witness :
    (is_min_saturated 0 = true ↔ (0 : Int) = -8388608) ∧
    (is_max_saturated 0 = true ↔ (0 : Int) = 8388607) :=
  C5_saturation_predicates 0 (by norm_num) (by norm_num)

/-- C6: the three enumerated gains map to 25, 26, 27 total clock pulses
(extra pulses beyond the 24 data pulses: 1, 2, 3), the mapping is total
and strictly monotonic on the enumerated gain domain. -/
theorem C6_clock_pulse_mapping :
    get_clock_pulses gain_128 = some 25 ∧
    get_clock_pulses gain_64 = some 26 ∧
    get_clock_pulses gain_32 = some 27 ∧
    (∀ g : Int, 0 ≤ g → g ≤ 2 →
        (get_clock_pulses g).getD 0 - READ_BITS = g + 1) ∧
    (∀ g : Int, 0 ≤ g → g ≤ 2 → (get_clock_pulses g).isSome = true) ∧
    (∀ g1 g2 : Int, 0 ≤ g1 → g1 < g2 → g2 ≤ 2 →
        (get_clock_pulses g1).getD 0 < (get_clock_pulses g2).getD 0) := by
  refine ⟨by decide, by decide, by decide, ?_, ?_, ?_⟩
  · intro g h1 h2
    interval_cases g <;> decide
  · intro g h1 h2
    interval_cases g <;> decide
  · intro g1 g2 h1 h2 h3
    have h4 : g1 ≤ 1 := by omega
    have h5 : 1 ≤ g2 := by omega
    interval_cases g1 <;> interval_cases g2 <;> decide

/-- Witness for C6's totality component at gain index 1. -/
theorem C6_clock_pulse_mapping_witness :
    (get_clock_pulses 1).isSome = true :=
  C6_clock_pulse_mapping.2.2.2.2.1 1 (by norm_num) (by norm_num)

/-- C7 counterexample: the rate index -1 lies outside the enumerated set
{0, 1}, yet `get_settling_time(-1)` returns the value 50 (Python negative
indexing) instead of failing. -/
theorem C7_settling_time_counterexample :
    get_settling_time (-1) = some 50 := by decide

/-- C7 amended: `get_settling_time` returns 400 ms for rate_10 and 50 ms
for rate_80; by Python negative indexing it also returns 50 at index -1
and 400 at index -2; every other index (≥ 2 or ≤ -3) fails with an
IndexError. -/
theorem C7_settling_time_amended :
    get_settling_time rate_10 = some 400 ∧
    get_settling_time rate_80 = some 50 ∧
    get_settling_time (-1) = some 50 ∧
    get_settling_time (-2) = some 400 ∧
    (∀ r : Int, 2 ≤ r ∨ r ≤ -3 → get_settling_time r = none) := by
  refine ⟨by decide, by decide, by decide, by decide, ?_⟩
  intro r h1
  simp only [get_settling_time, SETTLING_TIMES, pyListGet, List.length_cons,
    List.length_nil]
  rw [dif_neg]
  rintro ⟨hj, hlt⟩
  split_ifs at hj hlt <;> omega

/-- Witness for C7's out-of-range component at rate index 5. -/
theorem C7_settling_time_amended_witness :
    get_settling_time 5 = none :=
  C7_settling_time_amended.2.2.2.2 5 (Or.inl (by norm_num))

/-- C9: on the enumerated gains the PIO gain conversion
`get_clock_pulses(gain) - READ_BITS - 1` is the identity, and its result
satisfies `is_pio_gain_valid`. -/
theorem C9_gain_to_pio_gain_identity (g : Int) (h1 : 0 ≤ g) (h2 : g ≤ 2) :
    gain_to_pio_gain g = some g ∧ is_pio_gain_valid g = true := by
  interval_cases g <;> exact ⟨by decide, by decide⟩

/-- Witness for C9 at gain index 1. -/
theorem C9_gain_to_pio_gain_identity_witness :
    gain_to_pio_gain 1 = some 1 ∧ is_pio_gain_valid 1 = true :=
  C9_gain_to_pio_gain_identity 1 (by norm_num) (by norm_num)

/-- C2 evaluated at its failing inputs.  First conjunct: with the RX FIFO
holding the samples [0, 1, 2] and one poll at tick 10 (well before the
deadline 0 + 1000000), the polling loop does obtain the raw sample 0.
Second conjunct: `get_value_timeout` nevertheless returns `none`, because
the final `self.get_twos_comp(val) if val else None` treats the obtained
raw value 0 as falsy.  Third conjunct: with a single complete sample
queued for the whole timeout window, `get_value_timeout` also returns
`none`, because `_try_get_value` demands `READ_BITS / 8` = 3 queued FIFO
words. -/
theorem C2_get_value_timeout_divergence :
    (get_value_timeout_loop 1000000 [10] [0, 1, 2]).1 = some 0 ∧
    get_value_timeout 0 1000000 [10] [0, 1, 2] = none ∧
    get_value_timeout 0 1000000 [10, 1000000] [5] = none := by
  refine ⟨by decide, by decide, by decide⟩

/-- C3 evaluated at its failing inputs.  With one complete sample (42)
already queued, `get_value_noblock` returns `none` (it demands three
queued FIFO words); with three samples queued whose first raw value is 0
it also returns `none` (Python truthiness); with zero samples queued it
returns `none` as the claim states; with three queued samples of first
raw value 7 it returns the decoded reading 7. -/
theorem C3_get_value_noblock_divergence :
    get_value_noblock [42] = none ∧
    get_value_noblock [0, 1, 2] = none ∧
    get_value_noblock [] = none ∧
    get_value_noblock [7, 8, 9] = some 7 := by
  have h7 := get_twos_comp_char 7 (by norm_num)
  norm_num at h7
  refine ⟨by decide, by decide, by decide, ?_⟩
  show decode_if_truthy (try_get_value [7, 8, 9]).1 = some 7
  rw [show (try_get_value [7, 8, 9]).1 = some 7 from by decide]
  show (if (7 : Nat) ≠ 0 then some (get_twos_comp ((7 : Nat) : Int)) else none)
    = some 7
  rw [if_pos (by norm_num)]
  norm_num [h7]

lemma sm_drain_tx_fifo_eq_nil (tx : List Int) : sm_drain_tx_fifo tx = [] := by
  induction tx with
  | nil => rfl
  | cons x rest ih => exact ih

/-- C8: for every valid gain and every starting queue state in which the
engine produces samples, `set_gain` drains the TX FIFO, pushes exactly one
PIO gain code, and performs two blocking RX reads, discarding the first
word and consuming the second; on return the TX FIFO holds exactly the new
code and nothing stale. -/
theorem C8_set_gain_sequence (gain : Int) (h : is_gain_valid gain = true)
    (s : SMState) (r1 r2 : Nat) (rest : List Nat)
    (hrx : s.rx = r1 :: r2 :: rest) :
    ∃ code : Int, gain_to_pio_gain gain = some code ∧
      set_gain gain s = some { tx := [code], rx := rest, active := s.active } := by
  have hg : 0 ≤ gain ∧ gain ≤ 2 := by
    unfold is_gain_valid gain_128 gain_32 at h
    simpa using h
  obtain ⟨hg1, hg2⟩ := hg
  have hsome : gain_to_pio_gain gain = some gain := by
    interval_cases gain <;> decide
  refine ⟨gain, hsome, ?_⟩
  unfold set_gain
  rw [hsome, hrx]
  simp [sm_get_blocking, sm_drain_tx_fifo_eq_nil]

/-- Witness for C8 at gain 0 with TX FIFO [7, 8] and RX FIFO [1, 2, 3]. -/
theorem C8_set_gain_sequence_witness :
    ∃ code : Int, gain_to_pio_gain 0 = some code ∧
      set_gain 0 ⟨[7, 8], [1, 2, 3], true⟩ =
        some { tx := [code], rx := [3], active := true } :=
  C8_set_gain_sequence 0 (by decide) ⟨[7, 8], [1, 2, 3], true⟩ 1 2 [3] rfl

/-- C10: `close` deactivates the state machine and unloads the PIO
program but leaves the clock pin level and the pin configuration exactly
as they were, whereas `power_down` drives the clock line high. -/
theorem C10_close_frame (s : DriverState) :
    (close s).clock_pin = s.clock_pin ∧
    (close s).clock_mode_out = s.clock_mode_out ∧
    (close s).data_mode_in = s.data_mode_in ∧
    (close s).sm_active = false ∧
    (close s).program_loaded = false ∧
    (power_down s).clock_pin = PinLevel.high :=
  ⟨rfl, rfl, rfl, rfl, rfl, rfl⟩

end hx711
